import Mathlib

/-!
Shallow embedding of `src/packages/tldraw/src/state/shapes/shared/TextLabel.tsx`.

The component's event handlers (`handleChange`, `handleKeyDown`, `handleBlur`),
its `isEditing` effect and its layout effect are embedded as pure functions.
DOM events become structures carrying the fields the handlers read; the
observable actions of a handler (stopPropagation, preventDefault, blur,
execCommand, the values passed to the `onChange` / `onBlur` callbacks, the
mutations to the textarea element) are recorded in explicit result structures.
JS strings are embedded as `List Char`.
-/

namespace TextLabel

/-- A keyboard event, carrying the fields `handleKeyDown` reads
(`key`, `metaKey`, `ctrlKey`, `shiftKey`). -/
structure KeyEvent where
  key : String
  metaKey : Bool
  ctrlKey : Bool
  shiftKey : Bool
  deriving DecidableEq, Repr

/-- The state of the textarea element: its raw value, its selection range
and whether it currently has focus. -/
structure TextArea where
  value : List Char
  selStart : Nat
  selEnd : Nat
  focused : Bool
  deriving DecidableEq, Repr

/-- Modelled from the spec: `TLDR.normalizeText` lives in `~state/TLDR`,
which is not under `src/`. The spec describes it as whitespace/newline
canonicalization that leaves no disallowed raw characters; we model it as
replacing every CRLF pair and every lone CR with a single LF, so the
carriage return is the disallowed raw character. -/
def normalizeText : List Char → List Char
  | [] => []
  | [c] => if c = '\r' then ['\n'] else [c]
  | c :: d :: rest =>
    if c = '\r' then
      if d = '\n' then '\n' :: normalizeText rest
      else '\n' :: normalizeText (d :: rest)
    else c :: normalizeText (d :: rest)

/-- Index of the start of the line containing position `pos`: the index just
after the last newline among the first `pos` characters (0 when none). -/
def lineStart (s : List Char) (pos : Nat) : Nat :=
  match ((s.take pos).reverse.findIdx? (· = '\n')) with
  | none => 0
  | some k => pos - k

/-- Two spaces, one level of indentation. -/
def INDENT : List Char := [' ', ' ']

/-- Modelled from the spec: `TextAreaUtils.indent` is imported from the
package index and is not under `src/`. The spec says Tab indents the current
line; we model it as inserting one level of indentation at the start of the
line containing the selection start, shifting the selection right. -/
def indent (ta : TextArea) : TextArea :=
  let ls := lineStart ta.value ta.selStart
  { ta with
    value := ta.value.take ls ++ INDENT ++ ta.value.drop ls
    selStart := ta.selStart + INDENT.length
    selEnd := ta.selEnd + INDENT.length }

/-- Modelled from the spec: `TextAreaUtils.unindent` is imported from the
package index and is not under `src/`. The spec says Shift+Tab removes one
level of indentation from the current line; we model it as removing one
leading indentation level of the line containing the selection start, when
present, shifting the selection left. -/
def unindent (ta : TextArea) : TextArea :=
  let ls := lineStart ta.value ta.selStart
  if (ta.value.drop ls).take INDENT.length = INDENT then
    { ta with
      value := ta.value.take ls ++ (ta.value.drop ls).drop INDENT.length
      selStart := ta.selStart - INDENT.length
      selEnd := ta.selEnd - INDENT.length }
  else ta

/-- The observable actions of a run of `handleKeyDown`. -/
structure KeyDownResult where
  stoppedPropagation : Bool
  preventedDefault : Bool
  execCommands : List String
  blurred : Bool
  onChangeCalls : List (List Char)
  textarea : TextArea
  deriving DecidableEq, Repr

/-- Lines 68-82 of `handleKeyDown`: the Escape / Ctrl-or-Meta+Enter blur and
the Tab indentation path, reached after the propagation-control block. -/
def keyDownTail (e : KeyEvent) (r : KeyDownResult) : KeyDownResult :=
  if e.key = "Escape" ∨ (e.key = "Enter" ∧ (e.ctrlKey ∨ e.metaKey)) then
    { r with blurred := true }
  else if e.key = "Tab" then
    let r1 := { r with preventedDefault := true }
    let ta2 := if e.shiftKey then unindent r1.textarea else indent r1.textarea
    { r1 with
      textarea := ta2
      onChangeCalls := r1.onChangeCalls ++ [normalizeText ta2.value] }
  else r

/-- Lines 44-85: `handleKeyDown`. Propagation is stopped unless the key is
`Meta` itself or the Meta modifier is held; Meta+Z runs `execCommand`
undo/redo, stops propagation, prevents default and returns; then the
Escape/Enter blur and the Tab path run. -/
def handleKeyDown (e : KeyEvent) (ta : TextArea) : KeyDownResult :=
  let r0 : KeyDownResult :=
    { stoppedPropagation := false, preventedDefault := false,
      execCommands := [], blurred := false, onChangeCalls := [], textarea := ta }
  if ¬ (e.key = "Meta" ∨ e.metaKey = true) then
    keyDownTail e { r0 with stoppedPropagation := true }
  else if e.key = "z" ∧ e.metaKey = true then
    { r0 with
      execCommands := [if e.shiftKey then "redo" else "undo"],
      stoppedPropagation := true, preventedDefault := true }
  else
    keyDownTail e r0

/-- The observable actions of a run of `handleChange` (line 37-42): the
single value passed to the `onChange` callback. -/
structure ChangeResult where
  onChangeCalls : List (List Char)
  deriving DecidableEq, Repr

/-- Lines 37-42: `handleChange` passes the normalization of the textarea's
current raw value to `onChange`. -/
def handleChange (ta : TextArea) : ChangeResult :=
  { onChangeCalls := [normalizeText ta.value] }

/-- The observable actions of a run of `handleBlur`. -/
structure BlurResult where
  textarea : TextArea
  onBlurCalls : Nat
  deriving DecidableEq, Repr

/-- Lines 87-93: `handleBlur` collapses the selection to `[0, 0]` and then
invokes the optional `onBlur` callback (`onBlur?.()`); the callback's
presence is embedded as an `Option Unit`. -/
def handleBlur (onBlur : Option Unit) (ta : TextArea) : BlurResult :=
  { textarea := { ta with selStart := 0, selEnd := 0 }
    onBlurCalls := if onBlur.isSome then 1 else 0 }

/-- A keydown processed to completion on the editing surface: the handler
runs, and when it called `blur()` on a focused element the host fires one
blur event, which `handleBlur` processes. Returns the handler result, the
final textarea state and the number of `onBlur` invocations. -/
def dispatchKeyDown (onBlur : Option Unit) (e : KeyEvent) (ta : TextArea) :
    KeyDownResult × TextArea × Nat :=
  let r := handleKeyDown e ta
  if r.blurred ∧ r.textarea.focused = true then
    let b := handleBlur onBlur { r.textarea with focused := false }
    (r, b.textarea, b.onBlurCalls)
  else
    (r, r.textarea, 0)

/-- The exception set as the specification words it: the copy, paste, undo,
redo and select-all shortcuts — Meta held with key c, v, z or a (redo being
Meta+Shift+Z). Written from the spec's words, to be compared against the
propagation control actually performed by `handleKeyDown`. -/
def claimedExceptionSet (e : KeyEvent) : Bool :=
  e.metaKey && (e.key = "c" || e.key = "v" || e.key = "z" || e.key = "a")

/-- A textarea holding the text "ab", caret at the end, focused. -/
def ta0 : TextArea :=
  { value := ['a', 'b'], selStart := 2, selEnd := 2, focused := true }

/-- The Escape keydown with no modifiers. -/
def escEv : KeyEvent :=
  { key := "Escape", metaKey := false, ctrlKey := false, shiftKey := false }

/-- The Tab keydown with no modifiers. -/
def tabEv : KeyEvent :=
  { key := "Tab", metaKey := false, ctrlKey := false, shiftKey := false }

/-- The Meta+Z (undo) keydown. -/
def zMetaEv : KeyEvent :=
  { key := "z", metaKey := true, ctrlKey := false, shiftKey := false }

/-- The observable actions of a run of the `isEditing` effect (lines
116-129): how many animation-frame callbacks were scheduled and how many
times `onBlur` was invoked synchronously. -/
structure EffectOutcome where
  scheduledFrames : Nat
  onBlurCalls : Nat
  deriving DecidableEq, Repr

/-- Lines 116-129: the body of the `isEditing` effect. When `isEditing` is
true it schedules one `requestAnimationFrame` callback; otherwise it invokes
the optional `onBlur` callback. -/
def isEditingEffect (isEditing : Bool) (onBlur : Option Unit) : EffectOutcome :=
  if isEditing then
    { scheduledFrames := 1, onBlurCalls := 0 }
  else
    { scheduledFrames := 0, onBlurCalls := if onBlur.isSome then 1 else 0 }

/-- A change of the `isEditing` dependency: React re-runs the effect exactly
when the dependency changed. -/
def effectOnTransition (oldVal newVal : Bool) (onBlur : Option Unit) : EffectOutcome :=
  if oldVal = newVal then { scheduledFrames := 0, onBlurCalls := 0 }
  else isEditingEffect newVal onBlur

/-- The render-local state the scheduled frame callback touches: the
`rIsMounted` ref and the textarea behind the `rInput` ref (possibly absent). -/
structure FrameState where
  isMounted : Bool
  input : Option TextArea
  deriving DecidableEq, Repr

/-- Lines 118-125: the deferred animation-frame callback. It marks the
component mounted and, when the textarea element exists, focuses it and
selects its entire contents. -/
def frameCallback (st : FrameState) : FrameState :=
  let st1 := { st with isMounted := true }
  match st1.input with
  | some elm =>
    { st1 with
      input := some { elm with focused := true, selStart := 0, selEnd := elm.value.length } }
  | none => st1

/-- The style fields the layout effect can touch, together with the fields
set during render (`font`, `color`). -/
structure Style where
  transform : String
  width : String
  height : String
  font : String
  color : String
  deriving DecidableEq, Repr

/-- The inner wrapper element as the layout effect sees it: its style and
its text content. -/
structure DivEl where
  style : Style
  textContent : List Char
  deriving DecidableEq, Repr

/-- The transform string written by the layout effect: a scale followed by a
translate. -/
def transformString (scale offsetX offsetY : Int) : String :=
  "scale(" ++ toString scale ++ ", " ++ toString scale ++ ") translate(" ++
    toString offsetX ++ "px, " ++ toString offsetY ++ "px)"

/-- Lines 133-139: the layout effect sets the inner wrapper's `transform`
from `scale`/`offsetX`/`offsetY` and its `width`/`height` from the measured
size, touching nothing else. -/
def layoutEffect (scale offsetX offsetY : Int) (size : Int × Int) (el : DivEl) : DivEl :=
  { el with
    style := { el.style with
      transform := transformString scale offsetX offsetY
      width := toString size.1 ++ "px"
      height := toString size.2 ++ "px" } }

/-- Normalized text contains no carriage return, the disallowed raw
character. -/
theorem cr_not_mem_normalizeText (s : List Char) : '\r' ∉ normalizeText s := by
  induction s using normalizeText.induct with
  | case1 => simp [normalizeText]
  | case2 => simp [normalizeText]
  | case3 c h => simp [normalizeText, h, Ne.symm h]
  | case4 rest ih => simp [normalizeText, ih]
  | case5 d rest h ih => simp [normalizeText, h, ih]
  | case6 c d rest h ih => simp [normalizeText, h, Ne.symm h, ih]

/-- Text without carriage returns is a fixed point of normalization. -/
theorem normalizeText_eq_self (s : List Char) (h : '\r' ∉ s) :
    normalizeText s = s := by
  induction s using normalizeText.induct with
  | case1 => simp [normalizeText]
  | case2 => simp_all
  | case3 c hc => simp [normalizeText, hc]
  | case4 rest ih => simp_all
  | case5 d rest hd ih => simp_all
  | case6 c d rest hc ih =>
    simp only [List.mem_cons, not_or] at h
    simp [normalizeText, hc, ih (by simp [h.2.1, h.2.2])]

/-- Normalization is idempotent. -/
theorem normalizeText_idem (s : List Char) :
    normalizeText (normalizeText s) = normalizeText s :=
  normalizeText_eq_self _ (cr_not_mem_normalizeText s)

/-- The tail of the keydown handler never touches the propagation flag. -/
theorem keyDownTail_stoppedPropagation (e : KeyEvent) (r : KeyDownResult) :
    (keyDownTail e r).stoppedPropagation = r.stoppedPropagation := by
  unfold keyDownTail
  split_ifs <;> rfl

/-- The calls the keydown handler makes to `onChange` are empty or a single
normalization of the textarea's resulting value. -/
theorem keyDown_onChangeCalls (e : KeyEvent) (ta : TextArea) :
    (handleKeyDown e ta).onChangeCalls = []
      ∨ (handleKeyDown e ta).onChangeCalls
          = [normalizeText (handleKeyDown e ta).textarea.value] := by
  unfold handleKeyDown keyDownTail
  split_ifs <;> simp

/-- C1: every value handed to `onChange` — from a change event or from the
Tab path of `handleKeyDown` — is the normalization of the textarea's current
raw value, and every delivered value is already-normalized text. -/
theorem C1_onChange_always_normalized (e : KeyEvent) (ta : TextArea) :
    (handleChange ta).onChangeCalls = [normalizeText ta.value]
    ∧ ((handleKeyDown e ta).onChangeCalls = []
        ∨ (handleKeyDown e ta).onChangeCalls
            = [normalizeText (handleKeyDown e ta).textarea.value])
    ∧ (handleKeyDown e ta).onChangeCalls.map normalizeText
        = (handleKeyDown e ta).onChangeCalls
    ∧ (handleChange ta).onChangeCalls.map normalizeText
        = (handleChange ta).onChangeCalls := by
  refine ⟨rfl, keyDown_onChangeCalls e ta, ?_, ?_⟩
  · rcases keyDown_onChangeCalls e ta with h | h <;>
      simp [h, normalizeText_idem]
  · simp [handleChange, normalizeText_idem]

/-- C2 (counterexample): the undo shortcut Meta+Z belongs to the exception
set claimed by the spec, yet `handleKeyDown` stops its propagation, so the
undo/redo shortcuts do not pass through unstopped. -/
theorem C2_counterexample :
    claimedExceptionSet zMetaEv = true
    ∧ (handleKeyDown zMetaEv ta0).stoppedPropagation = true := by
  constructor <;> rfl

/-- C2 (amended): for every keydown received while editing, propagation is
stopped exactly when the key is not the Meta key and the Meta modifier is
not held, or when the key is z with Meta held (undo/redo, which the handler
services locally via execCommand); every other Meta-modified combination —
copy, paste and select-all among them — passes through unstopped. -/
theorem C2_stopPropagation_iff (e : KeyEvent) (ta : TextArea) :
    (handleKeyDown e ta).stoppedPropagation = true
      ↔ (¬ (e.key = "Meta" ∨ e.metaKey = true)
          ∨ (e.key = "z" ∧ e.metaKey = true)) := by
  unfold handleKeyDown
  split_ifs with h1 h2 <;>
    simp_all [keyDownTail_stoppedPropagation]

/-- C3: a keydown whose key is Escape, processed on a focused textarea with
an `onBlur` callback supplied, invokes `onBlur` exactly once. -/
theorem C3_escape_blurs_once (onB : Option Unit) (e : KeyEvent) (ta : TextArea)
    (h1 : e.key = "Escape") (h2 : ta.focused = true) (h3 : onB.isSome = true) :
    (dispatchKeyDown onB e ta).2.2 = 1 := by
  unfold dispatchKeyDown handleKeyDown keyDownTail handleBlur
  split_ifs <;> simp_all

/-- C3 (witness): the plain Escape keydown on a focused textarea invokes the
supplied `onBlur` exactly once. -/
theorem C3_witness : (dispatchKeyDown (some ()) escEv ta0).2.2 = 1 :=
  C3_escape_blurs_once (some ()) escEv ta0 rfl rfl rfl

/-- C4: the keydown handler blurs the textarea exactly for Escape, or Enter
with the Ctrl or Meta modifier held; no other combination blurs. -/
theorem C4_blur_iff (e : KeyEvent) (ta : TextArea) :
    (handleKeyDown e ta).blurred = true
      ↔ (e.key = "Escape"
          ∨ (e.key = "Enter" ∧ (e.ctrlKey = true ∨ e.metaKey = true))) := by
  unfold handleKeyDown keyDownTail
  split_ifs <;> simp_all

/-- C5: a Tab keydown prevents the default focus move, unindents the current
line when Shift is held and indents it otherwise, and forwards the
normalized resulting text to `onChange`. -/
theorem C5_tab_indents (e : KeyEvent) (ta : TextArea) (h : e.key = "Tab") :
    (handleKeyDown e ta).preventedDefault = true
    ∧ (handleKeyDown e ta).textarea
        = (if e.shiftKey then unindent ta else indent ta)
    ∧ (handleKeyDown e ta).onChangeCalls
        = [normalizeText (if e.shiftKey then unindent ta else indent ta).value] := by
  unfold handleKeyDown keyDownTail
  split_ifs <;> simp_all

/-- C5 (witness): the plain Tab keydown on the sample textarea prevents
default, indents and forwards the normalized indented text. -/
theorem C5_witness :
    (handleKeyDown tabEv ta0).preventedDefault = true
    ∧ (handleKeyDown tabEv ta0).textarea
        = (if tabEv.shiftKey then unindent ta0 else indent ta0)
    ∧ (handleKeyDown tabEv ta0).onChangeCalls
        = [normalizeText (if tabEv.shiftKey then unindent ta0 else indent ta0).value] :=
  C5_tab_indents tabEv ta0 rfl

/-- C6: when the editing flag transitions from false to true, the effect
schedules exactly one animation-frame callback, and that deferred callback
marks the component mounted and — provided the textarea element exists —
focuses it and selects its entire contents. -/
theorem C6_edit_transition_focuses (oldE newE : Bool) (onB : Option Unit)
    (st : FrameState) (elm : TextArea)
    (h1 : oldE = false) (h2 : newE = true) (h3 : st.input = some elm) :
    (effectOnTransition oldE newE onB).scheduledFrames = 1
    ∧ (effectOnTransition oldE newE onB).onBlurCalls = 0
    ∧ (frameCallback st).isMounted = true
    ∧ (frameCallback st).input
        = some { elm with focused := true, selStart := 0, selEnd := elm.value.length } := by
  subst h1 h2
  refine ⟨rfl, rfl, ?_, ?_⟩ <;> simp [frameCallback, h3]

/-- C6 (witness): the false-to-true transition with the sample textarea
present schedules one frame whose callback focuses and fully selects it. -/
theorem C6_witness :
    (effectOnTransition false true (some ())).scheduledFrames = 1
    ∧ (effectOnTransition false true (some ())).onBlurCalls = 0
    ∧ (frameCallback { isMounted := false, input := some ta0 }).isMounted = true
    ∧ (frameCallback { isMounted := false, input := some ta0 }).input
        = some { ta0 with focused := true, selStart := 0, selEnd := ta0.value.length } :=
  C6_edit_transition_focuses false true (some ())
    { isMounted := false, input := some ta0 } ta0 rfl rfl rfl

/-- C7: the layout effect rewrites only the transform (a scale followed by a
translate) and the applied width/height; the text content and the render-set
style fields (font, color) are untouched, and with the measured size held
fixed a change of scale/offsets leaves width and height unchanged. -/
theorem C7_transform_update (s1 s2 x1 x2 y1 y2 : Int) (sz : Int × Int) (el : DivEl) :
    (layoutEffect s1 x1 y1 sz el).textContent = el.textContent
    ∧ (layoutEffect s2 x2 y2 sz el).textContent = el.textContent
    ∧ (layoutEffect s1 x1 y1 sz el).style.font = el.style.font
    ∧ (layoutEffect s1 x1 y1 sz el).style.color = el.style.color
    ∧ (layoutEffect s1 x1 y1 sz el).style.width = (layoutEffect s2 x2 y2 sz el).style.width
    ∧ (layoutEffect s1 x1 y1 sz el).style.height = (layoutEffect s2 x2 y2 sz el).style.height
    ∧ (layoutEffect s2 x2 y2 sz el).style.transform
        = "scale(" ++ toString s2 ++ ", " ++ toString s2 ++ ") translate(" ++
            toString x2 ++ "px, " ++ toString y2 ++ "px)" := by
  simp [layoutEffect, transformString]

/-- C8: every blur event collapses the selection to `[0, 0]` while leaving
the text alone, invokes the `onBlur` callback once when one is supplied and
does nothing callback-wise when none is. -/
theorem C8_blur_collapses (onB : Option Unit) (ta : TextArea) :
    (handleBlur onB ta).textarea.selStart = 0
    ∧ (handleBlur onB ta).textarea.selEnd = 0
    ∧ (handleBlur onB ta).textarea.value = ta.value
    ∧ (handleBlur onB ta).onBlurCalls = (if onB.isSome then 1 else 0) := by
  simp [handleBlur]

/-- C9: the normalization applied before text reaches `onChange` is
idempotent and its output contains no disallowed raw character (no carriage
return). -/
theorem C9_normalize_idempotent (s : List Char) :
    normalizeText (normalizeText s) = normalizeText s
    ∧ '\r' ∉ normalizeText s :=
  ⟨normalizeText_idem s, cr_not_mem_normalizeText s⟩

/-- C10: when the `isEditing` prop transitions from true to false, the
effect invokes the supplied `onBlur` callback even though no blur event
occurred, and schedules no frame. -/
theorem C10_exit_invokes_onBlur (oldE newE : Bool) (onB : Option Unit)
    (h1 : oldE = true) (h2 : newE = false) (h3 : onB.isSome = true) :
    (effectOnTransition oldE newE onB).onBlurCalls = 1
    ∧ (effectOnTransition oldE newE onB).scheduledFrames = 0 := by
  subst h1 h2
  simp [effectOnTransition, isEditingEffect, h3]

/-- C10 (witness): the true-to-false transition with an `onBlur` supplied
invokes it once and schedules nothing. -/
theorem C10_witness :
    (effectOnTransition true false (some ())).onBlurCalls = 1
    ∧ (effectOnTransition true false (some ())).scheduledFrames = 0 :=
  C10_exit_invokes_onBlur true false (some ()) rfl rfl rfl

end TextLabel
